import Mathlib

/-!
Shallow embedding of the libmicrohttpd (experimental HTTPS era) connection
layer, centered on `src/daemon/connection_https.c` and the public header
`microhttpd.h`.  Machine integers are modelled as `Int`/`Nat` (no overflow is
relevant on the modelled paths), socket buffers as `List Nat` (one entry per
byte), and the C functions become pure Lean functions that return the updated
connection together with the externally visible effects (return value,
termination-notifier invocations, whether a dispatch to the plain HTTP read
handler happened).
-/

/-- Return sentinel `MHD_YES` (= 1) from microhttpd.h. -/
def MHD_YES : Nat := 1

/-- Return sentinel `MHD_NO` (= 0) from microhttpd.h. -/
def MHD_NO : Nat := 0

/-- TLS record content type `GNUTLS_CHANGE_CIPHER_SPEC` (= 20), from
`content_type_t` in gnutls_int.h. -/
def GNUTLS_CHANGE_CIPHER_SPEC : Nat := 20

/-- TLS record content type `GNUTLS_ALERT` (= 21), from `content_type_t` in
gnutls_int.h. -/
def GNUTLS_ALERT : Nat := 21

/-- TLS record content type `GNUTLS_HANDSHAKE` (= 22), from `content_type_t`
in gnutls_int.h. -/
def GNUTLS_HANDSHAKE : Nat := 22

/-- TLS record content type `GNUTLS_APPLICATION_DATA` (= 23), from
`content_type_t` in gnutls_int.h. -/
def GNUTLS_APPLICATION_DATA : Nat := 23

/-- TLS record content type `GNUTLS_INNER_APPLICATION` (= 24), from
`content_type_t` in gnutls_int.h. -/
def GNUTLS_INNER_APPLICATION : Nat := 24

/-- TLS alert description `close_notify` (= 0, RFC 4346), the value of
`GNUTLS_A_CLOSE_NOTIFY` in the bundled TLS library. -/
def GNUTLS_A_CLOSE_NOTIFY : Nat := 0

/-- TLS alert level `fatal` (= 2, RFC 4346), the value of `GNUTLS_AL_FATAL`
in the bundled TLS library.  (connection_https.c compares the stored alert
description against this level constant; the comparison is kept verbatim.) -/
def GNUTLS_AL_FATAL : Nat := 2

/-- HTTP-layer connection states used by connection_https.c
(`connection->state`). -/
inductive ConnState where
  | MHD_CONNECTION_INIT
  | MHD_CONNECTION_CLOSED
  | MHD_CONNECTION_OTHER
  deriving DecidableEq, Repr

/-- Secure-layer sub-states (`connection->s_state`) named in
connection_https.c; `MHDS_REPLY_SENDING` is the further state mentioned in
its comments, landing in the `default` switch clauses. -/
inductive SecureState where
  | MHDS_CONNECTION_INIT
  | MHDS_HANDSHAKE_FAILED
  | MHDS_HANDSHAKE_COMPLETE
  | MHDS_CONNECTION_CLOSED
  | MHDS_REPLY_SENDING
  deriving DecidableEq, Repr

/-- Request-termination codes passed to the daemon's completion notifier.
`MHD_REQUEST_TERMINATED_WITH_ERROR` appears in connection_https.c; the other
codes are the ones the specification names for timeouts and shutdown. -/
inductive TerminationCode where
  | MHD_REQUEST_TERMINATED_WITH_ERROR
  | MHD_REQUEST_TERMINATED_TIMEOUT_REACHED
  | MHD_REQUEST_TERMINATED_DAEMON_SHUTDOWN
  deriving DecidableEq, Repr

/-- The fields of `connection->tls_session->internals` touched by
connection_https.c.  `deinited` records that `gnutls_deinit` ran and
`bye_sent` that `gnutls_bye` ran. -/
structure TlsSession where
  last_alert : Nat
  read_eof : Bool
  resumable : Bool
  valid_connection : Bool
  bye_sent : Bool
  deinited : Bool
  deriving DecidableEq, Repr

/-- The `struct MHD_Connection` fields used by connection_https.c.  The read
and write buffers are byte lists; `socket_fd = -1` means the socket has been
released. -/
structure MHD_Connection where
  socket_fd : Int
  state : ConnState
  s_state : SecureState
  last_activity : Int
  read_buffer : List Nat
  read_buffer_offset : Nat
  read_buffer_size : Nat
  write_buffer : List Nat
  write_buffer_send_offset : Nat
  write_buffer_append_offset : Nat
  tls_session : TlsSession
  deriving DecidableEq, Repr

/-- The `struct MHD_Daemon` fields used by connection_https.c:
`connection_timeout` (seconds, 0 = never) and whether `notify_completed`
is non-NULL. -/
structure MHD_Daemon where
  connection_timeout : Nat
  notify_registered : Bool
  deriving DecidableEq, Repr

/-- Embedding of `connection_close_error` (connection_https.c lines 45-57):
shut down and close the socket (abstracted as `socket_fd := -1`), move the
HTTP state to `MHD_CONNECTION_CLOSED`, and, when a completion notifier is
registered on the daemon, invoke it with
`MHD_REQUEST_TERMINATED_WITH_ERROR`.  The returned list holds the
termination codes handed to the notifier. -/
def connection_close_error (d : MHD_Daemon) (c : MHD_Connection) :
    MHD_Connection × List TerminationCode :=
  ({ c with socket_fd := -1, state := .MHD_CONNECTION_CLOSED },
   if d.notify_registered then [.MHD_REQUEST_TERMINATED_WITH_ERROR] else [])

/-- Result of one call to the secure idle handler: updated connection, the
termination codes delivered to the notifier (in order), and the `int`
return value (`MHD_YES`/`MHD_NO`). -/
structure IdleOutcome where
  conn : MHD_Connection
  notifications : List TerminationCode
  ret : Nat
  deriving DecidableEq, Repr

/-- Embedding of `MHDS_connection_handle_idle` (connection_https.c lines
105-143).  The `while (1)` body runs exactly once (every path breaks).  In
the `switch` on `s_state`, `MHDS_HANDSHAKE_FAILED` sets `socket_fd := -1`
and falls through; `MHDS_CONNECTION_INIT` and `MHDS_HANDSHAKE_COMPLETE`
fall through into the `MHDS_CONNECTION_CLOSED` clause, which calls
`connection_close_error` whenever the socket is still open; other states
take the `default` clause and do nothing.  Afterwards, with
`timeout = daemon->connection_timeout`, the connection is error-closed and
`MHD_NO` returned when the socket is open, `timeout` is nonzero and
`now - timeout > last_activity`; otherwise `MHD_YES` is returned. -/
def MHDS_connection_handle_idle (d : MHD_Daemon) (now : Int)
    (c0 : MHD_Connection) : IdleOutcome :=
  let step1 : MHD_Connection × List TerminationCode :=
    match c0.s_state with
    | .MHDS_HANDSHAKE_FAILED => ({ c0 with socket_fd := -1 }, [])
    | .MHDS_CONNECTION_INIT | .MHDS_HANDSHAKE_COMPLETE
    | .MHDS_CONNECTION_CLOSED =>
        if c0.socket_fd ≠ -1 then connection_close_error d c0 else (c0, [])
    | .MHDS_REPLY_SENDING => (c0, [])
  let c1 := step1.1
  if c1.socket_fd ≠ -1 ∧ d.connection_timeout ≠ 0 ∧
      now - (d.connection_timeout : Int) > c1.last_activity then
    let step2 := connection_close_error d c1
    ⟨step2.1, step1.2 ++ step2.2, MHD_NO⟩
  else
    ⟨c1, step1.2, MHD_YES⟩

/-- Environment for one call to the secure read handler: the result of the
`MSG_PEEK` recv (`none` when recv returned -1, otherwise the peeked TLS
record-type byte), the alert description that `_gnutls_recv_int` would
decode in the alert case, and the return value of `gnutls_handshake` in the
handshake case. -/
structure TlsReadEnv where
  peek : Option Nat
  alert : Nat
  handshake_ret : Int
  deriving DecidableEq, Repr

/-- The `int` result of the secure read handler; `fromHttpHandler` marks the
tail call `return MHD_connection_handle_read (connection)` whose value is
produced by the plain HTTP read handler. -/
inductive ReadResult where
  | yes
  | no
  | fromHttpHandler
  deriving DecidableEq, Repr

/-- Result of one call to the secure read handler: updated connection,
whether the plain HTTP read handler was invoked, whether the `MSG_PEEK`
recv on the socket was reached, and the return value. -/
structure ReadOutcome where
  conn : MHD_Connection
  dispatchedHttp : Bool
  peeked : Bool
  result : ReadResult
  deriving DecidableEq, Repr

/-- Embedding of `MHDS_connection_handle_read` (connection_https.c lines
145-254).  `last_activity` is set to the current time first; a connection
whose `s_state` is `MHDS_CONNECTION_CLOSED` then yields `MHD_NO` at once,
before the socket peek.  Otherwise the peeked record type is switched on:
change-cipher-spec and inner-application break out returning `MHD_YES`;
an alert is decoded and handled (close_notify: send bye, mark EOF, drop the
socket, deinit, `MHD_YES`; non-fatal: `MHD_YES`; fatal: mark the session
invalid and non-resumable, drop the socket, deinit, `MHD_NO`);
application data tail-calls the plain `MHD_connection_handle_read`;
a handshake record runs `gnutls_handshake` — on success `s_state` becomes
`MHDS_HANDSHAKE_COMPLETE` and `state` becomes `MHD_CONNECTION_INIT`, on
failure `s_state` becomes `MHDS_HANDSHAKE_FAILED`, bye/deinit run, the
socket is dropped and `MHD_NO` is returned.  Unlisted record types fall
out of the switch returning `MHD_YES`. -/
def MHDS_connection_handle_read (env : TlsReadEnv) (now : Int)
    (c0 : MHD_Connection) : ReadOutcome :=
  let c := { c0 with last_activity := now }
  if c.s_state = .MHDS_CONNECTION_CLOSED then
    ⟨c, false, false, .no⟩
  else
    match env.peek with
    | none => ⟨c, false, true, .no⟩
    | some msg =>
      if msg = GNUTLS_CHANGE_CIPHER_SPEC then
        ⟨c, false, true, .yes⟩
      else if msg = GNUTLS_ALERT then
        let s := { c.tls_session with last_alert := env.alert }
        if env.alert = GNUTLS_A_CLOSE_NOTIFY then
          ⟨{ c with
              tls_session :=
                { s with read_eof := true, bye_sent := true, deinited := true },
              socket_fd := -1 }, false, true, .yes⟩
        else if env.alert ≠ GNUTLS_AL_FATAL then
          ⟨{ c with tls_session := s }, false, true, .yes⟩
        else
          ⟨{ c with
              tls_session :=
                { s with resumable := false, valid_connection := false,
                         deinited := true },
              socket_fd := -1 }, false, true, .no⟩
      else if msg = GNUTLS_APPLICATION_DATA then
        ⟨c, true, true, .fromHttpHandler⟩
      else if msg = GNUTLS_HANDSHAKE then
        if env.handshake_ret = 0 then
          ⟨{ c with s_state := .MHDS_HANDSHAKE_COMPLETE,
                    state := .MHD_CONNECTION_INIT }, false, true, .yes⟩
        else
          ⟨{ c with s_state := .MHDS_HANDSHAKE_FAILED,
                    tls_session :=
                      { c.tls_session with bye_sent := true, deinited := true },
                    socket_fd := -1 }, false, true, .no⟩
      else
        ⟨c, false, true, .yes⟩

/-- Overwrite `data` into `buf` starting at index `start`, extending the list
when the write runs past the end of `buf` (a C out-of-bounds write is
represented by the result being longer than `buf`). -/
def writeAt (buf : List Nat) (start : Nat) (data : List Nat) : List Nat :=
  buf.take start ++ data ++ buf.drop (start + data.length)

/-- Embedding of `MHDS_con_read` (connection_https.c lines 84-92): it calls
`gnutls_record_recv (tls_session, &read_buffer[read_buffer_offset],
read_buffer_size)` — i.e. the byte limit passed to the transport is the full
`read_buffer_size`, with the destination starting at `read_buffer_offset`.
`incoming` is the decrypted application-data stream the TLS layer can
deliver; the transport stores `min (incoming.length) read_buffer_size`
bytes at offset `read_buffer_offset` and the count is returned. -/
def MHDS_con_read (c : MHD_Connection) (incoming : List Nat) :
    MHD_Connection × Int :=
  let data := incoming.take c.read_buffer_size
  ({ c with read_buffer := writeAt c.read_buffer c.read_buffer_offset data },
   (data.length : Int))

/-- The function pointers that can be stored in a connection's callback
slots: the secure variants defined in connection_https.c and the plain HTTP
variants it forward-declares. -/
inductive FnPtr where
  | MHDS_con_read
  | MHDS_con_write
  | MHDS_connection_handle_read
  | MHDS_connection_handle_write
  | MHDS_connection_handle_idle
  | MHD_connection_handle_read
  | MHD_connection_handle_write
  | MHD_connection_handle_idle
  deriving DecidableEq, Repr

/-- The five callback slots of `struct MHD_Connection` assigned by
`MHD_set_https_calbacks`. -/
structure ConnectionCallbacks where
  recv_cls : FnPtr
  send_cls : FnPtr
  read_handler : FnPtr
  write_handler : FnPtr
  idle_handler : FnPtr
  deriving DecidableEq, Repr

/-- Embedding of `MHD_set_https_calbacks` (connection_https.c lines
285-293), assigning the connection's five callback slots. -/
def MHD_set_https_calbacks (_cb : ConnectionCallbacks) : ConnectionCallbacks :=
  { recv_cls := .MHDS_con_read
    send_cls := .MHDS_con_write
    read_handler := .MHDS_connection_handle_read
    write_handler := .MHD_connection_handle_write
    idle_handler := .MHD_connection_handle_idle }

/-- The three operating modes of the daemon (microhttpd.h `enum MHD_OPTION`
documentation): external mode (the host calls `MHD_get_fdset` then
`MHD_run`), internal select, and thread-per-connection. -/
inductive DaemonMode where
  | externalMode
  | internalSelect
  | threadPerConnection
  deriving DecidableEq, Repr

/-- What the library does when a content reader callback returns 0. -/
inductive ReaderZeroBehavior where
  | retryImmediately
  | retryNextRound
  | abortProcess
  deriving DecidableEq, Repr

/-- Behavior on a content-reader return of 0, as documented on
`MHD_ContentReaderCallback` in microhttpd.h: "returning zero will cause
libmicrohttpd to try again, either immediately if in multi-threaded mode
... or in the next round if MHD_run is used.  Returning 0 for a daemon that
runs in internal select mode is an error (since it would result in busy
waiting) and will cause the program to be aborted (abort())."  (The body
implementing this is not under src/; this definition embeds the header's
normative documentation.) -/
def readerZeroBehavior : DaemonMode → ReaderZeroBehavior
  | .threadPerConnection => .retryImmediately
  | .externalMode => .retryNextRound
  | .internalSelect => .abortProcess

/-- Body source of a response object: either bytes copied at creation time
(`must_copy`) or a borrowed reference into the caller's buffer, read at
transmission time. -/
inductive ResponseBody where
  | copied (bytes : List Nat)
  | borrowed
  deriving DecidableEq, Repr

/-- Modelled from the spec: the parts of `struct MHD_Response` that the
claims need (response.c is not under src/) — the declared size, the body
source, and the `must_free` ownership flag (§3 Response, §4.3). -/
structure MHD_Response where
  size : Nat
  body : ResponseBody
  must_free : Bool
  deriving DecidableEq, Repr

/-- Modelled from the spec: `MHD_create_response_from_data` (declared in
microhttpd.h, lines 382-398; implementation not under src/).  With
`must_copy` set, libmicrohttpd "must make a copy of data right away, the
data maybe released anytime after this call returns"; otherwise the
response keeps a reference to the caller's buffer. -/
def MHD_create_response_from_data (size : Nat) (data : List Nat)
    (must_free must_copy : Bool) : MHD_Response :=
  if must_copy then
    { size := size, body := .copied (data.take size), must_free := must_free }
  else
    { size := size, body := .borrowed, must_free := must_free }

/-- Modelled from the spec: the bytes the server transmits for a buffer
response (§2 data flow, §8 invariants).  A copied body transmits its
creation-time snapshot; a borrowed body reads the caller's buffer as it is
at transmission time (`callerBuf`). -/
def transmittedBytes (r : MHD_Response) (callerBuf : List Nat) : List Nat :=
  match r.body with
  | .copied bytes => bytes
  | .borrowed => callerBuf.take r.size

/-- Modelled from the spec: the per-session response slot of
`struct MHD_Session` — "Response pointer (nullable) + status code when
queued" (§3 Connection); connection.c is not under src/. -/
structure MHD_Session where
  response : Option MHD_Response
  response_code : Nat
  deriving DecidableEq, Repr

/-- Modelled from the spec: `MHD_queue_response` (declared in microhttpd.h
lines 350-363; implementation not under src/): "MHD_NO on error (i.e. reply
already sent), MHD_YES on success or if message has been queued", the
response being recorded on the session for transmission. -/
def MHD_queue_response (s : MHD_Session) (status_code : Nat)
    (r : MHD_Response) : MHD_Session × Nat :=
  match s.response with
  | some _ => (s, MHD_NO)
  | none => ({ s with response := some r, response_code := status_code },
             MHD_YES)

/-- Modelled from the spec: the content-reader streaming loop for one
queuing of a callback response (§2 data flow, §5 content-reader contract;
the loop in connection.c is not under src/).  Starting from position `pos`
(0 for a fresh queuing), each reader invocation receives the current
position and returns a count; a nonnegative return advances the position by
that count, a negative return ends the stream.  `rets` is the sequence of
values the reader returns; the result lists the `pos` argument passed to
each invocation actually made. -/
def contentReaderPositions (pos : Int) (rets : List Int) : List Int :=
  match rets with
  | [] => []
  | r :: rs =>
      pos :: (if 0 ≤ r then contentReaderPositions (pos + r) rs else [])

/-- A default TLS session record for concrete instances. -/
def sampleTls : TlsSession :=
  { last_alert := 0, read_eof := false, resumable := true,
    valid_connection := true, bye_sent := false, deinited := false }

/-- A concrete live connection (open socket, secure sub-state in the
`default` clause of the idle handler's switch) for concrete instances. -/
def sampleConn : MHD_Connection :=
  { socket_fd := 4, state := .MHD_CONNECTION_OTHER,
    s_state := .MHDS_REPLY_SENDING, last_activity := 0,
    read_buffer := [], read_buffer_offset := 0, read_buffer_size := 0,
    write_buffer := [], write_buffer_send_offset := 0,
    write_buffer_append_offset := 0, tls_session := sampleTls }

/-- C1 counterexample: the claim says a content reader returning 0 aborts
the process in external mode (get_fdset/run) and merely retries in the
other modes; but by the source documentation of
`MHD_ContentReaderCallback`, a 0 return under `MHD_run` (external mode)
retries in the next round — it does not abort — and the abort applies to
internal-select mode. -/
theorem C1_reader_zero_counterexample :
    readerZeroBehavior .externalMode = .retryNextRound ∧
    readerZeroBehavior .externalMode ≠ .abortProcess ∧
    readerZeroBehavior .internalSelect = .abortProcess := by
  decide

/-- C1 (amended): a content reader returning 0 is a fatal usage error in
internal-select mode, aborting the process; in external mode (get_fdset
then run) the library retries the reader in the next round, and in
thread-per-connection mode it retries immediately. -/
theorem C1_reader_zero_amended :
    readerZeroBehavior .internalSelect = .abortProcess ∧
    readerZeroBehavior .externalMode = .retryNextRound ∧
    readerZeroBehavior .threadPerConnection = .retryImmediately := by
  decide

/-- C2 counterexample: a secure connection whose idle time exceeds the
daemon timeout is closed by `MHDS_connection_handle_idle`, but the
registered notifier receives `MHD_REQUEST_TERMINATED_WITH_ERROR` — not
`MHD_REQUEST_TERMINATED_TIMEOUT_REACHED` as the claim states (daemon
timeout 10s, notifier registered, last activity at 0, current time 100). -/
theorem C2_timeout_code_counterexample :
    (MHDS_connection_handle_idle ⟨10, true⟩ 100 sampleConn).notifications =
      [.MHD_REQUEST_TERMINATED_WITH_ERROR] ∧
    (MHDS_connection_handle_idle ⟨10, true⟩ 100 sampleConn).conn.socket_fd
      = -1 ∧
    (MHDS_connection_handle_idle ⟨10, true⟩ 100 sampleConn).ret = MHD_NO ∧
    TerminationCode.MHD_REQUEST_TERMINATED_WITH_ERROR ≠
      .MHD_REQUEST_TERMINATED_TIMEOUT_REACHED := by
  decide

/-- C2 (amended): for every secure connection that the idle handler closes
because it exceeded the idle timeout, the connection's socket is closed
(socket_fd becomes -1, HTTP state becomes CLOSED) and, if a per-request
termination notifier is registered on the daemon, that notifier is invoked
with termination code `MHD_REQUEST_TERMINATED_WITH_ERROR` (the handler
reuses the generic error-close path; no timeout-specific code exists on
this path). -/
theorem C2_timeout_close_amended (d : MHD_Daemon) (now : Int)
    (c : MHD_Connection)
    (hs : c.s_state = .MHDS_REPLY_SENDING)
    (hfd : c.socket_fd ≠ -1)
    (ht : d.connection_timeout ≠ 0)
    (hidle : now - (d.connection_timeout : Int) > c.last_activity)
    (hn : d.notify_registered = true) :
    (MHDS_connection_handle_idle d now c).conn.socket_fd = -1 ∧
    (MHDS_connection_handle_idle d now c).conn.state =
      .MHD_CONNECTION_CLOSED ∧
    (MHDS_connection_handle_idle d now c).notifications =
      [.MHD_REQUEST_TERMINATED_WITH_ERROR] ∧
    (MHDS_connection_handle_idle d now c).ret = MHD_NO := by
  simp [MHDS_connection_handle_idle, hs, hfd, ht, hidle, hn,
        connection_close_error]

/-- C2 witness: the amended theorem applied to the concrete timed-out
connection (timeout 10s, last activity 0, now 100, notifier registered). -/
theorem C2_timeout_close_witness :
    (MHDS_connection_handle_idle ⟨10, true⟩ 100 sampleConn).conn.socket_fd
      = -1 ∧
    (MHDS_connection_handle_idle ⟨10, true⟩ 100 sampleConn).conn.state =
      .MHD_CONNECTION_CLOSED ∧
    (MHDS_connection_handle_idle ⟨10, true⟩ 100 sampleConn).notifications =
      [.MHD_REQUEST_TERMINATED_WITH_ERROR] ∧
    (MHDS_connection_handle_idle ⟨10, true⟩ 100 sampleConn).ret = MHD_NO :=
  C2_timeout_close_amended ⟨10, true⟩ 100 sampleConn rfl (by decide)
    (by decide) (by decide) rfl

/-- C3: the code contradicts the claim — a secure connection in sub-state
`MHDS_CONNECTION_INIT` with an open socket and zero idle time (last
activity equals the current time, well within the 10-second timeout) is
nonetheless closed by `MHDS_connection_handle_idle`, because the switch
cases for `MHDS_CONNECTION_INIT` and `MHDS_HANDSHAKE_COMPLETE` fall
through (missing `break`) into the `MHDS_CONNECTION_CLOSED` error-close
clause, against the code's own `/* wait for request */` comment. -/
theorem C3_idle_fallthrough_closes_fresh_connection :
    (MHDS_connection_handle_idle ⟨10, true⟩ 100
        { sampleConn with s_state := .MHDS_CONNECTION_INIT,
                          last_activity := 100 }).conn.socket_fd = -1 ∧
    (MHDS_connection_handle_idle ⟨10, true⟩ 100
        { sampleConn with s_state := .MHDS_CONNECTION_INIT,
                          last_activity := 100 }).conn.state =
      .MHD_CONNECTION_CLOSED ∧
    (MHDS_connection_handle_idle ⟨10, true⟩ 100
        { sampleConn with s_state := .MHDS_CONNECTION_INIT,
                          last_activity := 100 }).notifications =
      [.MHD_REQUEST_TERMINATED_WITH_ERROR] ∧
    ¬((100 : Int) - (10 : Int) > (100 : Int)) := by
  decide

/-- C4: the secure read handler dispatches to the plain HTTP read handler
exactly for application-data records (on a non-closed secure connection
with a successful peek); the connection's HTTP state is set to
`MHD_CONNECTION_INIT` exactly when a handshake record is processed and
`gnutls_handshake` returns success, in which case the secure sub-state
becomes `MHDS_HANDSHAKE_COMPLETE`; and on handshake failure the connection
is marked `MHDS_HANDSHAKE_FAILED`, its socket is dropped, the TLS session
is deinitialized and `MHD_NO` is returned. -/
theorem C4_handshake_gates_http (env : TlsReadEnv) (now : Int)
    (c0 : MHD_Connection) :
    ((MHDS_connection_handle_read env now c0).dispatchedHttp = true ↔
      (c0.s_state ≠ .MHDS_CONNECTION_CLOSED ∧
       env.peek = some GNUTLS_APPLICATION_DATA)) ∧
    ((MHDS_connection_handle_read env now c0).conn.state =
      if c0.s_state ≠ .MHDS_CONNECTION_CLOSED ∧
          env.peek = some GNUTLS_HANDSHAKE ∧ env.handshake_ret = 0
      then .MHD_CONNECTION_INIT else c0.state) ∧
    ((MHDS_connection_handle_read env now c0).conn.s_state =
      if c0.s_state ≠ .MHDS_CONNECTION_CLOSED ∧
          env.peek = some GNUTLS_HANDSHAKE
      then (if env.handshake_ret = 0 then .MHDS_HANDSHAKE_COMPLETE
            else .MHDS_HANDSHAKE_FAILED)
      else c0.s_state) ∧
    (c0.s_state ≠ .MHDS_CONNECTION_CLOSED →
      env.peek = some GNUTLS_HANDSHAKE → env.handshake_ret ≠ 0 →
      (MHDS_connection_handle_read env now c0).conn.socket_fd = -1 ∧
      (MHDS_connection_handle_read env now c0).conn.tls_session.deinited
        = true ∧
      (MHDS_connection_handle_read env now c0).result = .no) := by
  rcases env with ⟨peek, alert, hs⟩
  simp only [MHDS_connection_handle_read, GNUTLS_CHANGE_CIPHER_SPEC,
             GNUTLS_ALERT, GNUTLS_HANDSHAKE, GNUTLS_APPLICATION_DATA,
             GNUTLS_A_CLOSE_NOTIFY, GNUTLS_AL_FATAL]
  by_cases hcl : c0.s_state = SecureState.MHDS_CONNECTION_CLOSED
  · simp [hcl]
  · cases peek with
    | none => simp [hcl]
    | some msg =>
      by_cases h20 : msg = 20
      · simp [hcl, h20]
      · by_cases h21 : msg = 21
        · by_cases ha0 : alert = 0
          · simp [hcl, h20, h21, ha0]
          · by_cases haf : alert = 2
            · simp [hcl, h20, h21, ha0, haf]
            · simp [hcl, h20, h21, ha0, haf]
        · by_cases h23 : msg = 23
          · simp [hcl, h20, h21, h23]
          · by_cases h22 : msg = 22
            · by_cases hr0 : hs = 0
              · simp [hcl, h20, h21, h23, h22, hr0]
              · simp [hcl, h20, h21, h23, h22, hr0]
            · simp [hcl, h20, h21, h23, h22]

/-- C4 witness: the gating theorem applied at concrete inputs — a live
connection receiving a handshake record with a failing `gnutls_handshake`
return (-10) ends with the socket dropped, the session deinitialized and
`MHD_NO`; and its dispatch clause instantiated on an application-data
record yields a dispatch to the plain HTTP handler. -/
theorem C4_handshake_gates_http_witness :
    ((MHDS_connection_handle_read ⟨some GNUTLS_HANDSHAKE, 0, -10⟩ 5
        sampleConn).conn.socket_fd = -1 ∧
     (MHDS_connection_handle_read ⟨some GNUTLS_HANDSHAKE, 0, -10⟩ 5
        sampleConn).conn.tls_session.deinited = true ∧
     (MHDS_connection_handle_read ⟨some GNUTLS_HANDSHAKE, 0, -10⟩ 5
        sampleConn).result = .no) ∧
    (MHDS_connection_handle_read ⟨some GNUTLS_APPLICATION_DATA, 0, 0⟩ 5
        sampleConn).dispatchedHttp = true :=
  ⟨(C4_handshake_gates_http ⟨some GNUTLS_HANDSHAKE, 0, -10⟩ 5
      sampleConn).2.2.2 (by decide) rfl (by decide),
   (C4_handshake_gates_http ⟨some GNUTLS_APPLICATION_DATA, 0, 0⟩ 5
      sampleConn).1.mpr ⟨by decide, rfl⟩⟩

/-- C10: when the secure sub-state is `MHDS_CONNECTION_CLOSED`, the secure
read handler returns `MHD_NO` immediately: the `MSG_PEEK` recv on the
socket is never reached (no bytes are read), and the only connection field
that changes is `last_activity`, which is set to the current time. -/
theorem C10_closed_secure_read (env : TlsReadEnv) (now : Int)
    (c : MHD_Connection) (h : c.s_state = .MHDS_CONNECTION_CLOSED) :
    MHDS_connection_handle_read env now c =
      ⟨{ c with last_activity := now }, false, false, .no⟩ := by
  simp [MHDS_connection_handle_read, h]

/-- C10 witness: the closed-sub-state theorem applied to a concrete closed
secure connection at time 99. -/
theorem C10_closed_secure_read_witness :
    MHDS_connection_handle_read ⟨some GNUTLS_APPLICATION_DATA, 0, 0⟩ 99
        { sampleConn with s_state := .MHDS_CONNECTION_CLOSED } =
      ⟨{ sampleConn with s_state := .MHDS_CONNECTION_CLOSED,
                         last_activity := 99 }, false, false, .no⟩ :=
  C10_closed_secure_read ⟨some GNUTLS_APPLICATION_DATA, 0, 0⟩ 99
    { sampleConn with s_state := .MHDS_CONNECTION_CLOSED } rfl

/-- C9: installing the secure-transport callbacks sets the byte-level recv
and send capabilities to the TLS record functions (`MHDS_con_read`,
`MHDS_con_write`) and the read handler to the secure read handler, while
the write handler and idle handler installed are the plain HTTP handlers
(`MHD_connection_handle_write`, `MHD_connection_handle_idle`), not the
secure variants. -/
theorem C9_https_callbacks (cb : ConnectionCallbacks) :
    (MHD_set_https_calbacks cb).recv_cls = .MHDS_con_read ∧
    (MHD_set_https_calbacks cb).send_cls = .MHDS_con_write ∧
    (MHD_set_https_calbacks cb).read_handler =
      .MHDS_connection_handle_read ∧
    (MHD_set_https_calbacks cb).write_handler =
      .MHD_connection_handle_write ∧
    (MHD_set_https_calbacks cb).idle_handler =
      .MHD_connection_handle_idle ∧
    (MHD_set_https_calbacks cb).write_handler ≠
      .MHDS_connection_handle_write ∧
    (MHD_set_https_calbacks cb).idle_handler ≠
      .MHDS_connection_handle_idle := by
  simp [MHD_set_https_calbacks]

/-- C5: `MHD_queue_response` returns `MHD_NO` and leaves the session
untouched when a response is already queued for the current request, and
returns `MHD_YES` with the response (and status code) recorded on the
session otherwise; moreover after any call a response is in flight, so a
further `MHD_queue_response` always fails and never replaces the recorded
response — the session never holds more than one response. -/
theorem C5_queue_response_exclusive (s : MHD_Session) (st : Nat)
    (r : MHD_Response) :
    (s.response = none →
      (MHD_queue_response s st r).2 = MHD_YES ∧
      (MHD_queue_response s st r).1.response = some r ∧
      (MHD_queue_response s st r).1.response_code = st) ∧
    (s.response ≠ none →
      (MHD_queue_response s st r).2 = MHD_NO ∧
      (MHD_queue_response s st r).1 = s) ∧
    (∀ st2 r2,
      (MHD_queue_response (MHD_queue_response s st r).1 st2 r2).2 =
        MHD_NO ∧
      (MHD_queue_response (MHD_queue_response s st r).1 st2 r2).1.response
        = (MHD_queue_response s st r).1.response) := by
  rcases hr : s.response with _ | r0 <;>
    simp [MHD_queue_response, hr, MHD_YES, MHD_NO]

/-- C5 witness: queuing on a fresh session succeeds and records the
response; queuing on a session that already holds a response fails and
leaves it unchanged. -/
theorem C5_queue_response_witness :
    ((MHD_queue_response ⟨none, 0⟩ 200 ⟨3, .copied [1, 2, 3], false⟩).2 =
        MHD_YES ∧
      (MHD_queue_response ⟨none, 0⟩ 200
          ⟨3, .copied [1, 2, 3], false⟩).1.response =
        some ⟨3, .copied [1, 2, 3], false⟩ ∧
      (MHD_queue_response ⟨none, 0⟩ 200
          ⟨3, .copied [1, 2, 3], false⟩).1.response_code = 200) ∧
    ((MHD_queue_response ⟨some ⟨3, .copied [1, 2, 3], false⟩, 200⟩ 404
          ⟨0, .borrowed, false⟩).2 = MHD_NO ∧
      (MHD_queue_response ⟨some ⟨3, .copied [1, 2, 3], false⟩, 200⟩ 404
          ⟨0, .borrowed, false⟩).1 =
        ⟨some ⟨3, .copied [1, 2, 3], false⟩, 200⟩) :=
  ⟨(C5_queue_response_exclusive ⟨none, 0⟩ 200
      ⟨3, .copied [1, 2, 3], false⟩).1 rfl,
   (C5_queue_response_exclusive ⟨some ⟨3, .copied [1, 2, 3], false⟩, 200⟩
      404 ⟨0, .borrowed, false⟩).2.1 (by decide)⟩

set_option maxRecDepth 4000 in
/-- C6: the code contradicts the claim — `MHDS_con_read` passes the full
buffer capacity `read_buffer_size` (not capacity minus the current offset)
as the byte limit of `gnutls_record_recv` while writing at
`read_buffer_offset`, so on a connection whose 100-byte read buffer
already holds 50 bytes, a transport delivery of 100 bytes writes through
index 149: the buffer grows to 150 bytes, past its 100-byte capacity,
violating `read_off ≤ read_size ≤ capacity`. -/
theorem C6_secure_read_overflows :
    ((MHDS_con_read
        { sampleConn with read_buffer := List.replicate 100 0,
                          read_buffer_offset := 50,
                          read_buffer_size := 100 }
        (List.replicate 100 7)).1.read_buffer.length = 150) ∧
    ({ sampleConn with read_buffer := List.replicate 100 0,
                       read_buffer_offset := 50,
                       read_buffer_size := 100 } :
        MHD_Connection).read_buffer.length = 100 ∧
    (MHDS_con_read
        { sampleConn with read_buffer := List.replicate 100 0,
                          read_buffer_offset := 50,
                          read_buffer_size := 100 }
        (List.replicate 100 7)).2 = 100 := by
  decide

/-- C8: for a response created from a buffer with `must_copy = true`, the
transmitted bytes are the same in two runs that differ only in the state
of the caller's buffer at transmission time, and equal the buffer contents
at creation time — transmission depends only on the creation-time
snapshot. -/
theorem C8_must_copy_snapshot (size : Nat) (data : List Nat) (mf : Bool)
    (buf1 buf2 : List Nat) :
    transmittedBytes (MHD_create_response_from_data size data mf true)
        buf1 =
      transmittedBytes (MHD_create_response_from_data size data mf true)
        buf2 ∧
    transmittedBytes (MHD_create_response_from_data size data mf true)
        buf1 = data.take size := by
  simp [MHD_create_response_from_data, transmittedBytes]

/-- Shifting the starting position of the content-reader loop shifts every
position passed to the reader by the same amount. -/
theorem contentReaderPositions_map_add (p : Int) (rets : List Int) :
    contentReaderPositions p rets =
      (contentReaderPositions 0 rets).map (p + ·) := by
  induction rets generalizing p with
  | nil => simp [contentReaderPositions]
  | cons r rs ih =>
    by_cases hr : (0 : Int) ≤ r
    · simp [contentReaderPositions, hr, ih (p + r), ih r, List.map_map,
            Function.comp, add_assoc]
    · simp [contentReaderPositions, hr]

/-- The position passed to the k-th reader invocation of a loop started at
`p` is `p` plus the sum of the nonnegative returns among the first k. -/
theorem contentReaderPositions_get? (p : Int) (rets : List Int) (k : Nat)
    (h : k < (contentReaderPositions p rets).length) :
    (contentReaderPositions p rets).get? k =
      some (p + ((rets.take k).filter (fun r => 0 ≤ r)).sum) := by
  induction rets generalizing p k with
  | nil => simp [contentReaderPositions] at h
  | cons r rs ih =>
    cases k with
    | zero => simp [contentReaderPositions]
    | succ k =>
      have hr : (0 : Int) ≤ r := by
        by_contra hneg
        simp [contentReaderPositions, hneg] at h
      simp only [contentReaderPositions, if_pos hr] at h ⊢
      have hlen : k < (contentReaderPositions (p + r) rs).length := by
        simpa using h
      have hstep := ih (p + r) k hlen
      simp only [List.get?_cons_succ]
      rw [hstep]
      simp [List.filter_cons, hr, add_assoc]

/-- The positions passed to successive reader invocations never decrease. -/
theorem contentReaderPositions_chain (p : Int) (rets : List Int) :
    List.Chain' (· ≤ ·) (contentReaderPositions p rets) := by
  induction rets generalizing p with
  | nil => simp [contentReaderPositions]
  | cons r rs ih =>
    by_cases hr : (0 : Int) ≤ r
    · simp only [contentReaderPositions, if_pos hr]
      rw [List.chain'_cons']
      refine ⟨?_, ih (p + r)⟩
      intro b hb
      cases rs with
      | nil => simp [contentReaderPositions] at hb
      | cons r2 rs2 =>
        simp [contentReaderPositions] at hb
        omega
    · simp [contentReaderPositions, hr]

/-- C7: for one queuing of a callback response, the `pos` argument handed
to the k-th invocation of the content reader equals the sum of the
nonnegative values the reader has returned so far (so it is 0 on the first
call), and the successive positions grow monotonically. -/
theorem C7_reader_position_sum (rets : List Int) (k : Nat)
    (h : k < (contentReaderPositions 0 rets).length) :
    (contentReaderPositions 0 rets).get ⟨k, h⟩ =
      ((rets.take k).filter (fun r => 0 ≤ r)).sum ∧
    List.Chain' (· ≤ ·) (contentReaderPositions 0 rets) := by
  refine ⟨?_, contentReaderPositions_chain 0 rets⟩
  have hq := contentReaderPositions_get? 0 rets k h
  rw [List.get?_eq_get h] at hq
  have hv := Option.some.inj hq
  simpa using hv

/-- C7 witness: the reader trace 3, 0, 4, -1 — the third invocation
receives position 3, the sum of the nonnegative returns 3 and 0 before
it, and the position sequence 0, 3, 3, 7 is monotone. -/
theorem C7_reader_position_sum_witness :
    (contentReaderPositions 0 [3, 0, 4, -1]).get ⟨2, by decide⟩ =
      ((([3, 0, 4, -1] : List Int).take 2).filter (fun r => 0 ≤ r)).sum ∧
    List.Chain' (· ≤ ·) (contentReaderPositions 0 [3, 0, 4, -1]) :=
  C7_reader_position_sum [3, 0, 4, -1] 2 (by decide)
